import Mathlib

/-!
Verification of the rent-or-buy calculator (src/app.py).

The financial core of the program is a set of pure numeric functions over
Python floats.  We embed them shallowly over `ℚ`; a Python
`ZeroDivisionError` (raised on division by zero) is modelled by returning
`none`, so every fallible operation has type `... → Option ℚ`.
-/

namespace RentOrBuy

/-- `monthly_mortgage_payment` (src/app.py lines 8–17).  Computes the
fixed-rate annuity payment `L·r·(1+r)^n / ((1+r)^n - 1)` with
`r = annual_interest_rate/100/12` and `n = loan_term*12`.  The Python code
divides without guarding the denominator, so a zero denominator raises
`ZeroDivisionError`; we return `none` in exactly that case. -/
def monthly_mortgage_payment (loan_amount annual_interest_rate : ℚ)
    (loan_term : ℕ) : Option ℚ :=
  let monthly_interest_rate := annual_interest_rate / 100 / 12
  let loan_term_months := loan_term * 12
  if (1 + monthly_interest_rate) ^ loan_term_months - 1 = 0 then none
  else some (loan_amount * monthly_interest_rate *
      (1 + monthly_interest_rate) ^ loan_term_months /
      ((1 + monthly_interest_rate) ^ loan_term_months - 1))

/-- `annual_property_expenses` (src/app.py lines 19–23). -/
def annual_property_expenses (purchase_price property_tax_rate
    maintenance_cost_rate : ℚ) : ℚ :=
  let annual_property_tax := purchase_price * (property_tax_rate / 100)
  let annual_maintenance_cost := purchase_price * (maintenance_cost_rate / 100)
  annual_property_tax + annual_maintenance_cost

/-- `price_to_rent_ratio` (src/app.py lines 25–27); division by a zero
annual rent raises in Python, modelled as `none`. -/
def price_to_rent_ratio (purchase_price annual_rent : ℚ) : Option ℚ :=
  if annual_rent = 0 then none else some (purchase_price / annual_rent)

/-- `net_rental_yield` (src/app.py lines 29–31); division by a zero
purchase price raises in Python, modelled as `none`. -/
def net_rental_yield (annual_rent annual_expenses purchase_price : ℚ) :
    Option ℚ :=
  if purchase_price = 0 then none
  else some ((annual_rent - annual_expenses) / purchase_price * 100)

/-- `cash_on_cash_return` (src/app.py lines 33–35); division by a zero
down payment raises in Python, modelled as `none`. -/
def cash_on_cash_return (annual_rent annual_expenses down_payment : ℚ) :
    Option ℚ :=
  if down_payment = 0 then none
  else some ((annual_rent - annual_expenses) / down_payment * 100)

/-- `dti` (src/app.py lines 37–39); division by a zero annual income
raises in Python, modelled as `none`. -/
def dti (monthly_payment annual_income : ℚ) : Option ℚ :=
  if annual_income = 0 then none
  else some (monthly_payment * 12 / annual_income * 100)

/-- `roi` (src/app.py lines 41–44); division by a zero down payment
raises in Python, modelled as `none`. -/
def roi (annual_rent annual_expenses down_payment : ℚ) : Option ℚ :=
  if down_payment = 0 then none
  else
    let net_profit := annual_rent - annual_expenses
    some (net_profit / down_payment * 100)

/-- `calculate_score` (src/app.py lines 46–61): one point per favourable
threshold. -/
def calculate_score (price_to_rent roi_value net_yield dti_value : ℚ) : ℕ :=
  let score : ℕ := 0
  let score := if price_to_rent < 15 then score + 1 else score
  let score := if roi_value > 10 then score + 1 else score
  let score := if net_yield > 5 then score + 1 else score
  let score := if dti_value < 36 then score + 1 else score
  score

/-- The down payment computed by the UI handler (src/app.py line 162). -/
def down_payment (purchase_price down_payment_percentage : ℚ) : ℚ :=
  purchase_price * (down_payment_percentage / 100)

/-- The loan amount computed by the UI handler (src/app.py line 163). -/
def loan_amount (purchase_price down_payment_percentage : ℚ) : ℚ :=
  purchase_price - down_payment purchase_price down_payment_percentage

/-- `np.linspace a b n`: `n` evenly spaced samples from `a` to `b`
inclusive, exact over `ℚ`. -/
def linspace (a b : ℚ) (n : ℕ) : List ℚ :=
  (List.range n).map fun i : ℕ => a + (b - a) * (i : ℚ) / ((n : ℚ) - 1)

/-- The swept purchase-price range (src/app.py line 168): ±20% in 5 steps. -/
def purchase_prices (purchase_price : ℚ) : List ℚ :=
  linspace (purchase_price * 0.8) (purchase_price * 1.2) 5

/-- The swept annual-rent range (src/app.py line 169): ±20% in 5 steps. -/
def annual_rents (annual_rent : ℚ) : List ℚ :=
  linspace (annual_rent * 0.8) (annual_rent * 1.2) 5

/-- `price_to_rent_matrix` (src/app.py lines 172–175): rows indexed by
rent, columns by price. -/
def price_to_rent_matrix (purchase_price annual_rent : ℚ) :
    List (List (Option ℚ)) :=
  (annual_rents annual_rent).map fun rent =>
    (purchase_prices purchase_price).map fun price =>
      price_to_rent_ratio price rent

/-- `roi_matrix` (src/app.py lines 178–184): each cell recomputes the
annual expenses and the down payment from that cell's swept price. -/
def roi_matrix (purchase_price annual_rent property_tax_rate
    maintenance_cost_rate down_payment_percentage : ℚ) :
    List (List (Option ℚ)) :=
  (annual_rents annual_rent).map fun rent =>
    (purchase_prices purchase_price).map fun price =>
      roi rent
        (annual_property_expenses price property_tax_rate maintenance_cost_rate)
        (price * (down_payment_percentage / 100))

/-- Index of the first minimum of a list of rationals (the semantics of
numpy `argmin`: ties broken by the first occurrence). -/
def idxMin : List ℚ → ℕ
  | [] => 0
  | [_] => 0
  | x :: y :: l =>
    if x ≤ (y :: l).getD (idxMin (y :: l)) 0 then 0 else idxMin (y :: l) + 1

/-- `np.abs(xs - c).argmin()` as used by `create_2d_heatmap`
(src/app.py lines 69–70) to find the grid cell closest to the user's
current inputs. -/
def argminAbs (xs : List ℚ) (c : ℚ) : ℕ :=
  idxMin (xs.map fun x => |x - c|)

/-- Modelled from the spec: variant A's `LoanInputs` value type (§3); the
time-series variant of the tool is absent from src/app.py. -/
structure LoanInputs where
  purchasePrice : ℚ
  downPaymentPct : ℚ
  loanTermYears : ℕ
  annualInterestRatePct : ℚ

/-- Modelled from the spec: `PropertyCostInputs` (§3). -/
structure PropertyCostInputs where
  purchasePrice : ℚ
  propertyTaxRatePct : ℚ
  maintenanceCostRatePct : ℚ

/-- Modelled from the spec: `RentalInputs` (§3), variant A. -/
structure RentalInputs where
  annualRent : ℚ
  rentIncreaseRatePct : ℚ

/-- Modelled from the spec: `MarketInputs` (§3), variant A. -/
structure MarketInputs where
  annualAppreciationRatePct : ℚ

/-- Modelled from the spec: `YearlyProjection` (§3). -/
structure YearlyProjection where
  cumulativeBuyingCost : ℚ
  cumulativeRentingCost : ℚ
  propertyValue : ℚ

/-- Modelled from the spec: §4.1's `monthlyPayment` with the required
zero-rate linear fallback, as used by the §4.5 projector (the projector
itself is absent from src/app.py). -/
def monthlyPayment (loanAmount annualRatePct : ℚ) (termYears : ℕ) : ℚ :=
  let r := annualRatePct / 100 / 12
  let n := termYears * 12
  if annualRatePct = 0 then loanAmount / (n : ℚ)
  else loanAmount * r * (1 + r) ^ n / ((1 + r) ^ n - 1)

/-- Modelled from the spec: the year-by-year accumulation loop of §4.5.
Each year adds the fixed annual buying cost, compounds the rent and adds
it to the cumulative renting cost, and compounds the property value. -/
def projectYearsAux (annualBuyCost rentIncRate appRate : ℚ) :
    ℕ → ℚ → ℚ → ℚ → ℚ → List YearlyProjection
  | 0, _, _, _, _ => []
  | k + 1, cumBuy, cumRent, rentThisYear, propVal =>
    let cumBuy2 := cumBuy + annualBuyCost
    let rent2 := rentThisYear * (1 + rentIncRate / 100)
    let cumRent2 := cumRent + rent2
    let propVal2 := propVal * (1 + appRate / 100)
    ⟨cumBuy2, cumRent2, propVal2⟩ ::
      projectYearsAux annualBuyCost rentIncRate appRate k cumBuy2 cumRent2
        rent2 propVal2

/-- Modelled from the spec: `projectYears` (§4.5, absent from src/app.py):
the monthly payment and the annual property expenses are computed once,
then `loanTermYears` years are accumulated. -/
def projectYears (loan : LoanInputs) (property : PropertyCostInputs)
    (rental : RentalInputs) (market : MarketInputs) : List YearlyProjection :=
  let dp := loan.purchasePrice * (loan.downPaymentPct / 100)
  let la := loan.purchasePrice - dp
  let mp := monthlyPayment la loan.annualInterestRatePct loan.loanTermYears
  let annualExpenses := annual_property_expenses property.purchasePrice
    property.propertyTaxRatePct property.maintenanceCostRatePct
  let annualBuyCost := mp * 12 + annualExpenses
  projectYearsAux annualBuyCost rental.rentIncreaseRatePct
    market.annualAppreciationRatePct loan.loanTermYears 0 0 rental.annualRent
    loan.purchasePrice

end RentOrBuy

namespace RentOrBuy

/-- The length of `linspace a b n` is `n`. -/
theorem linspace_length (a b : ℚ) (n : ℕ) : (linspace a b n).length = n := by
  unfold linspace
  rw [List.length_map, List.length_range]

/-- C1: for a zero annual interest rate the code's denominator
`(1+0)^n - 1` is zero, so `monthly_mortgage_payment` raises a division
fault (`none`) instead of returning the linear amortization
`loan_amount / (loan_term*12)` that the specification requires. -/
theorem c1_zero_rate_division_fault (loan_amount : ℚ) (loan_term : ℕ) :
    monthly_mortgage_payment loan_amount 0 loan_term = none := by
  simp [monthly_mortgage_payment]

/-- C2: `price_to_rent_ratio` fails (raises, modelled as `none`) iff the
annual rent is zero, and otherwise returns exactly `price / rent`. -/
theorem c2_price_to_rent_iff (purchase_price annual_rent : ℚ) :
    (price_to_rent_ratio purchase_price annual_rent = none ↔ annual_rent = 0) ∧
    (annual_rent ≠ 0 →
      price_to_rent_ratio purchase_price annual_rent =
        some (purchase_price / annual_rent)) := by
  constructor
  · unfold price_to_rent_ratio
    split <;> simp_all
  · intro h
    simp [price_to_rent_ratio, h]

/-- Witness for C2 at `price = 6`, `rent = 2`. -/
theorem c2_witness :
    (2 : ℚ) ≠ 0 ∧ price_to_rent_ratio 6 2 = some 3 := by
  refine ⟨by norm_num, ?_⟩
  rw [(c2_price_to_rent_iff 6 2).2 (by norm_num)]
  norm_num

/-- C3: the score is exactly the number of satisfied threshold conditions,
hence an integer in `[0,4]`. -/
theorem c3_score_counts (price_to_rent roi_value net_yield dti_value : ℚ) :
    calculate_score price_to_rent roi_value net_yield dti_value =
      ((if price_to_rent < 15 then 1 else 0) +
       (if roi_value > 10 then 1 else 0) +
       (if net_yield > 5 then 1 else 0) +
       (if dti_value < 36 then 1 else 0)) ∧
    calculate_score price_to_rent roi_value net_yield dti_value ≤ 4 := by
  unfold calculate_score
  split_ifs <;> simp_all

/-- C5: `roi` and `cash_on_cash_return` are one computation: they agree
(and fail together) on every input. -/
theorem c5_roi_eq_cash_on_cash (annual_rent annual_expenses down_payment : ℚ) :
    roi annual_rent annual_expenses down_payment =
      cash_on_cash_return annual_rent annual_expenses down_payment := rfl

/-- C8: the annual property expenses equal
`purchase_price * (tax + maintenance) / 100` and are non-negative on
non-negative inputs. -/
theorem c8_expenses (purchase_price property_tax_rate maintenance_cost_rate : ℚ)
    (hp : 0 ≤ purchase_price) (ht : 0 ≤ property_tax_rate)
    (hm : 0 ≤ maintenance_cost_rate) :
    annual_property_expenses purchase_price property_tax_rate
        maintenance_cost_rate =
      purchase_price * (property_tax_rate + maintenance_cost_rate) / 100 ∧
    0 ≤ annual_property_expenses purchase_price property_tax_rate
        maintenance_cost_rate := by
  constructor
  · unfold annual_property_expenses
    ring
  · unfold annual_property_expenses
    positivity

/-- Witness for C8 at `price = 200`, `tax = 1%`, `maintenance = 2%`. -/
theorem c8_witness :
    (0 : ℚ) ≤ 200 ∧ (0 : ℚ) ≤ 1 ∧ (0 : ℚ) ≤ 2 ∧
    (annual_property_expenses 200 1 2 = 200 * (1 + 2) / 100 ∧
      0 ≤ annual_property_expenses 200 1 2) :=
  ⟨by norm_num, by norm_num, by norm_num,
    c8_expenses 200 1 2 (by norm_num) (by norm_num) (by norm_num)⟩

/-- One year of compounding gathers strictly less than `n·r` of relative
interest: `(1+r)^n - 1 < n·r·(1+r)^n` for `r > 0`, `n ≥ 1`. -/
theorem geom_sum_interest (r : ℚ) (hr : 0 < r) (n : ℕ) (hn : 1 ≤ n) :
    (1 + r) ^ n - 1 < (n : ℚ) * r * (1 + r) ^ n := by
  induction n, hn using Nat.le_induction with
  | base =>
    push_cast
    ring_nf
    nlinarith
  | succ k hk ih =>
    have hxpos : (0 : ℚ) < (1 + r) ^ k := by positivity
    have hmono : (1 + r) ^ k ≤ (1 + r) ^ (k + 1) := by
      rw [pow_succ]
      nlinarith
    have hkr : (0 : ℚ) < ((k : ℚ) + 1) * r := by positivity
    push_cast
    calc (1 + r) ^ (k + 1) - 1
        = ((1 + r) ^ k - 1) + r * (1 + r) ^ k := by ring
      _ < (k : ℚ) * r * (1 + r) ^ k + r * (1 + r) ^ k := by linarith
      _ = ((k : ℚ) + 1) * r * (1 + r) ^ k := by ring
      _ ≤ ((k : ℚ) + 1) * r * (1 + r) ^ (k + 1) := by nlinarith

/-- With a positive monthly rate the payment formula's denominator is
positive. -/
theorem denom_pos (r : ℚ) (hr : 0 < r) (n : ℕ) (hn : 1 ≤ n) :
    0 < (1 + r) ^ n - 1 := by
  have : 1 < (1 + r) ^ n := one_lt_pow₀ (by linarith) (by omega)
  linarith

/-- C4 counterexample: `purchasePrice = 0`, `downPaymentPct = 20`,
`termYears = 1`, `rate = 12%` satisfies every §3 invariant and has a
positive rate, yet the loan amount is `0`, the monthly payment is `0`, and
`0 * 12 > 0` fails — the claim is false without a positive loan amount. -/
theorem c4_counterexample :
    (0 : ℚ) ≤ 0 ∧ (0 : ℚ) ≤ 20 ∧ (20 : ℚ) ≤ 100 ∧ 1 ≤ (1 : ℕ) ∧
    (0 : ℚ) < 12 ∧
    monthly_mortgage_payment (loan_amount 0 20) 12 1 = some 0 ∧
    ¬ (loan_amount 0 20 < 0 * ((1 * 12 : ℕ) : ℚ)) := by
  refine ⟨le_refl 0, by norm_num, by norm_num, le_refl 1, by norm_num, ?_, ?_⟩
  · unfold monthly_mortgage_payment loan_amount down_payment
    norm_num
  · simp [loan_amount, down_payment]

/-- C4 (amended): for every LoanInputs satisfying the §3 invariants with a
strictly positive purchase price, a down payment strictly below 100% (so
the loan amount is positive) and a positive annual rate, the monthly
payment over `termYears*12` months strictly exceeds the loan amount. -/
theorem c4_interest_paid (pp dpp rate : ℚ) (t : ℕ)
    (hpp : 0 < pp) (hdp0 : 0 ≤ dpp) (hdp : dpp < 100) (ht : 1 ≤ t)
    (hr : 0 < rate) :
    ∃ m : ℚ, monthly_mortgage_payment (loan_amount pp dpp) rate t = some m ∧
      loan_amount pp dpp < m * ((t * 12 : ℕ) : ℚ) := by
  have hL : 0 < loan_amount pp dpp := by
    unfold loan_amount down_payment
    nlinarith
  set r := rate / 100 / 12 with hrdef
  have hr' : 0 < r := by positivity
  have hn : 1 ≤ t * 12 := by omega
  have hden := denom_pos r hr' (t * 12) hn
  have hcore := geom_sum_interest r hr' (t * 12) hn
  refine ⟨loan_amount pp dpp * r * (1 + r) ^ (t * 12) /
      ((1 + r) ^ (t * 12) - 1), ?_, ?_⟩
  · unfold monthly_mortgage_payment
    rw [if_neg (by linarith)]
  · rw [div_mul_eq_mul_div, lt_div_iff₀ hden]
    have := mul_lt_mul_of_pos_left hcore hL
    nlinarith

/-- Witness for C4 at `pp = 100`, `dpp = 0`, `rate = 1200`, `t = 1`. -/
theorem c4_witness :
    (0 : ℚ) < 100 ∧ (0 : ℚ) ≤ 0 ∧ (0 : ℚ) < 100 ∧ 1 ≤ (1 : ℕ) ∧
    (0 : ℚ) < 1200 ∧
    (∃ m : ℚ, monthly_mortgage_payment (loan_amount 100 0) 1200 1 = some m ∧
      loan_amount 100 0 < m * ((1 * 12 : ℕ) : ℚ)) :=
  ⟨by norm_num, le_refl 0, by norm_num, le_refl 1, by norm_num,
    c4_interest_paid 100 0 1200 1 (by norm_num) (le_refl 0) (by norm_num)
      (le_refl 1) (by norm_num)⟩

/-- `getD` of a mapped list, inside bounds, is the function applied to the
underlying `getD`. -/
theorem getD_map {α β : Type} (f : α → β) (l : List α) (i : ℕ)
    (hi : i < l.length) (d : α) (d2 : β) :
    (l.map f).getD i d2 = f (l.getD i d) := by
  rw [List.getD_eq_getElem _ _ (by simpa using hi),
    List.getD_eq_getElem _ _ hi, List.getElem_map]

/-- The j-th swept purchase price is `0.8·p + j·0.1·p`. -/
theorem purchase_prices_getD (p : ℚ) (j : ℕ) (hj : j < 5) :
    (purchase_prices p).getD j 0 = p * 0.8 + (j : ℚ) * (p * 0.1) := by
  rw [purchase_prices, linspace,
    List.getD_eq_getElem _ _ (by rw [List.length_map, List.length_range]; exact hj)]
  rw [List.getElem_map, List.getElem_range]
  push_cast
  ring

/-- The i-th swept annual rent is `0.8·r + i·0.1·r`. -/
theorem annual_rents_getD (r : ℚ) (i : ℕ) (hi : i < 5) :
    (annual_rents r).getD i 0 = r * 0.8 + (i : ℚ) * (r * 0.1) := by
  rw [annual_rents, linspace,
    List.getD_eq_getElem _ _ (by rw [List.length_map, List.length_range]; exact hi)]
  rw [List.getElem_map, List.getElem_range]
  push_cast
  ring

/-- C6: both sensitivity matrices are 5×5, indexed `grid[rentIndex][priceIndex]`,
their axes are the 5-point linearly spaced ranges over `[0.8·p, 1.2·p]` and
`[0.8·r, 1.2·r]` (the (i,j) cell sees price `0.8·p + j·0.1·p` and rent
`0.8·r + i·0.1·r`), and each ROI cell recomputes the annual expenses and the
down payment from that cell's swept price with the tax, maintenance and
down-payment percentages held fixed. -/
theorem c6_sensitivity_matrices (p r tax maint dpp : ℚ) :
    (price_to_rent_matrix p r).length = 5 ∧
    (∀ row ∈ price_to_rent_matrix p r, row.length = 5) ∧
    (roi_matrix p r tax maint dpp).length = 5 ∧
    (∀ row ∈ roi_matrix p r tax maint dpp, row.length = 5) ∧
    (∀ i j : ℕ, i < 5 → j < 5 →
      ((price_to_rent_matrix p r).getD i []).getD j none =
        price_to_rent_ratio (p * 0.8 + (j : ℚ) * (p * 0.1))
          (r * 0.8 + (i : ℚ) * (r * 0.1)) ∧
      ((roi_matrix p r tax maint dpp).getD i []).getD j none =
        roi (r * 0.8 + (i : ℚ) * (r * 0.1))
          (annual_property_expenses (p * 0.8 + (j : ℚ) * (p * 0.1)) tax maint)
          ((p * 0.8 + (j : ℚ) * (p * 0.1)) * (dpp / 100))) := by
  refine ⟨?_, ?_, ?_, ?_, ?_⟩
  · rw [price_to_rent_matrix, List.length_map, annual_rents, linspace_length]
  · intro row hrow
    rw [price_to_rent_matrix] at hrow
    obtain ⟨rent, _, rfl⟩ := List.mem_map.mp hrow
    rw [List.length_map, purchase_prices, linspace_length]
  · rw [roi_matrix, List.length_map, annual_rents, linspace_length]
  · intro row hrow
    rw [roi_matrix] at hrow
    obtain ⟨rent, _, rfl⟩ := List.mem_map.mp hrow
    rw [List.length_map, purchase_prices, linspace_length]
  · intro i j hi hj
    have hi' : i < (annual_rents r).length := by
      rw [annual_rents, linspace_length]; exact hi
    have hj' : j < (purchase_prices p).length := by
      rw [purchase_prices, linspace_length]; exact hj
    constructor
    · rw [price_to_rent_matrix, getD_map _ _ i hi' 0 []]
      rw [getD_map _ _ j hj' 0 none]
      rw [purchase_prices_getD p j hj, annual_rents_getD r i hi]
    · rw [roi_matrix, getD_map _ _ i hi' 0 []]
      rw [getD_map _ _ j hj' 0 none]
      rw [purchase_prices_getD p j hj, annual_rents_getD r i hi]

/-- Witness for C6 at `p = 100`, `r = 10`, `tax = 1`, `maint = 2`,
`dpp = 20`, cell `(0,0)`. -/
theorem c6_witness :
    (0 : ℕ) < 5 ∧
    ((price_to_rent_matrix 100 10).getD 0 []).getD 0 none =
      price_to_rent_ratio (100 * 0.8 + ((0 : ℕ) : ℚ) * (100 * 0.1))
        (10 * 0.8 + ((0 : ℕ) : ℚ) * (10 * 0.1)) ∧
    ((roi_matrix 100 10 1 2 20).getD 0 []).getD 0 none =
      roi (10 * 0.8 + ((0 : ℕ) : ℚ) * (10 * 0.1))
        (annual_property_expenses (100 * 0.8 + ((0 : ℕ) : ℚ) * (100 * 0.1)) 1 2)
        ((100 * 0.8 + ((0 : ℕ) : ℚ) * (100 * 0.1)) * (20 / 100)) :=
  ⟨by decide,
    ((c6_sensitivity_matrices 100 10 1 2 20).2.2.2.2 0 0
      (by decide) (by decide)).1,
    ((c6_sensitivity_matrices 100 10 1 2 20).2.2.2.2 0 0
      (by decide) (by decide)).2⟩

/-- The first minimum is inside the list. -/
theorem idxMin_lt_length (l : List ℚ) (h : l ≠ []) : idxMin l < l.length := by
  induction l with
  | nil => simp at h
  | cons x t ih =>
    cases t with
    | nil => simp [idxMin]
    | cons y s =>
      simp only [idxMin]
      split
      · simp
      · have := ih (by simp)
        simp only [List.length_cons] at this ⊢
        omega

/-- The entry at `idxMin` is a minimum of the list. -/
theorem idxMin_le (l : List ℚ) (j : ℕ) (hj : j < l.length) :
    l.getD (idxMin l) 0 ≤ l.getD j 0 := by
  induction l generalizing j with
  | nil => simp at hj
  | cons x t ih =>
    cases t with
    | nil =>
      have : j = 0 := by simpa using Nat.lt_one_iff.mp (by simpa using hj)
      subst this
      simp [idxMin]
    | cons y s =>
      simp only [idxMin]
      split
      case isTrue h =>
        cases j with
        | zero => simp
        | succ k =>
          have hk : k < (y :: s).length := by
            simpa [Nat.succ_lt_succ_iff] using hj
          have h2 := ih k hk
          simp only [List.getD_cons_zero, List.getD_cons_succ]
          exact le_trans h h2
      case isFalse h =>
        push_neg at h
        cases j with
        | zero =>
          simp only [List.getD_cons_succ, List.getD_cons_zero]
          exact le_of_lt h
        | succ k =>
          have hk : k < (y :: s).length := by
            simpa [Nat.succ_lt_succ_iff] using hj
          simpa only [List.getD_cons_succ] using ih k hk

/-- Every entry strictly before `idxMin` is strictly larger: ties go to
the first occurrence. -/
theorem idxMin_first (l : List ℚ) (j : ℕ) (hj : j < idxMin l) :
    l.getD (idxMin l) 0 < l.getD j 0 := by
  induction l generalizing j with
  | nil => simp [idxMin] at hj
  | cons x t ih =>
    cases t with
    | nil => simp [idxMin] at hj
    | cons y s =>
      by_cases h : x ≤ (y :: s).getD (idxMin (y :: s)) 0
      · simp only [idxMin, if_pos h] at hj
        omega
      · simp only [idxMin, if_neg h] at hj ⊢
        push_neg at h
        cases j with
        | zero =>
          simpa only [List.getD_cons_succ, List.getD_cons_zero] using h
        | succ k =>
          have hk : k < idxMin (y :: s) := by omega
          simpa only [List.getD_cons_succ] using ih k hk

/-- Inside bounds, the mapped absolute differences read back through `getD`. -/
theorem absList_getD (xs : List ℚ) (c : ℚ) (i : ℕ) (hi : i < xs.length) :
    (xs.map fun x => |x - c|).getD i 0 = |xs.getD i 0 - c| :=
  getD_map (fun x => |x - c|) xs i hi 0 0

/-- C7: the highlighted-cell lookup picks, on each axis, the index whose
range value has minimal absolute difference from the current input, ties
broken by the first occurrence; at `purchasePrice = 300000` and
`annualRent = 15000` it picks index 2 (the exact centre) on both axes. -/
theorem c7_closest_cell :
    (∀ (xs : List ℚ) (c : ℚ), xs ≠ [] →
      argminAbs xs c < xs.length ∧
      (∀ j, j < xs.length →
        |xs.getD (argminAbs xs c) 0 - c| ≤ |xs.getD j 0 - c|) ∧
      (∀ j, j < argminAbs xs c →
        |xs.getD (argminAbs xs c) 0 - c| < |xs.getD j 0 - c|)) ∧
    argminAbs (purchase_prices 300000) 300000 = 2 ∧
    argminAbs (annual_rents 15000) 15000 = 2 := by
  refine ⟨?_, ?_, ?_⟩
  · intro xs c hxs
    have hne : (xs.map fun x => |x - c|) ≠ [] := by
      simpa using hxs
    have hlen : (xs.map fun x => |x - c|).length = xs.length :=
      List.length_map _ _
    have hbound : argminAbs xs c < xs.length := by
      have := idxMin_lt_length _ hne
      rwa [hlen] at this
    have hfold : idxMin (xs.map fun x => |x - c|) = argminAbs xs c := rfl
    refine ⟨hbound, ?_, ?_⟩
    · intro j hj
      have := idxMin_le (xs.map fun x => |x - c|) j (by rwa [hlen])
      rw [hfold, absList_getD xs c _ hbound, absList_getD xs c j hj] at this
      exact this
    · intro j hj
      have hjlen : j < xs.length := lt_trans hj hbound
      have := idxMin_first (xs.map fun x => |x - c|) j hj
      rw [hfold, absList_getD xs c _ hbound, absList_getD xs c j hjlen] at this
      exact this
  · have hpp : purchase_prices 300000 =
        [240000, 270000, 300000, 330000, 360000] := by
      norm_num [purchase_prices, linspace, List.range_succ]
    rw [hpp]
    norm_num [argminAbs, idxMin, abs_of_nonneg, abs_of_nonpos]
  · have har : annual_rents 15000 = [12000, 13500, 15000, 16500, 18000] := by
      norm_num [annual_rents, linspace, List.range_succ]
    rw [har]
    norm_num [argminAbs, idxMin, abs_of_nonneg, abs_of_nonpos]

/-- Witness for C7 on the two-element list `[3, 1]` with target `0`. -/
theorem c7_witness :
    ([(3 : ℚ), 1] : List ℚ) ≠ [] ∧
    argminAbs [(3 : ℚ), 1] 0 < ([(3 : ℚ), 1] : List ℚ).length :=
  ⟨by simp, (c7_closest_cell.1 [3, 1] 0 (by simp)).1⟩

/-- C10: `net_rental_yield` divides by the purchase price, so it raises a
division fault exactly when the purchase price is zero — a zero-denominator
case absent from the specification's error taxonomy. -/
theorem c10_yield_zero_price (annual_rent annual_expenses purchase_price : ℚ) :
    net_rental_yield annual_rent annual_expenses purchase_price = none ↔
      purchase_price = 0 := by
  unfold net_rental_yield
  split <;> simp_all

/-- The accumulation loop produces one entry per year. -/
theorem projectYearsAux_length (abc ri ar : ℚ) :
    ∀ (k : ℕ) (cb cr rty pv : ℚ),
      (projectYearsAux abc ri ar k cb cr rty pv).length = k := by
  intro k
  induction k with
  | zero => intro cb cr rty pv; simp [projectYearsAux]
  | succ k ih =>
    intro cb cr rty pv
    simp only [projectYearsAux, List.length_cons]
    rw [ih]

/-- With both rates zero the loop adds the same rent every year and never
changes the property value. -/
theorem projectYearsAux_zero_rates (abc rty pv : ℚ) :
    ∀ (k i : ℕ), i < k → ∀ (cb cr : ℚ),
      ((projectYearsAux abc 0 0 k cb cr rty pv).getD i
          ⟨0, 0, 0⟩).cumulativeRentingCost = cr + rty * ((i : ℚ) + 1) ∧
      ((projectYearsAux abc 0 0 k cb cr rty pv).getD i
          ⟨0, 0, 0⟩).propertyValue = pv := by
  intro k
  induction k with
  | zero => intro i hi; omega
  | succ k ih =>
    intro i hi cb cr
    have h1 : rty * (1 + (0 : ℚ) / 100) = rty := by norm_num
    have h2 : pv * (1 + (0 : ℚ) / 100) = pv := by norm_num
    simp only [projectYearsAux]
    rw [h1, h2]
    cases i with
    | zero =>
      simp only [List.getD_cons_zero]
      norm_num
    | succ i =>
      simp only [List.getD_cons_succ]
      have := ih i (by omega) (cb + abc) (cr + rty)
      refine ⟨?_, this.2⟩
      rw [this.1]
      push_cast
      ring

/-- C9: `projectYears` returns exactly `loanTermYears` entries, and with a
zero rent-increase rate and a zero appreciation rate year `i` carries a
cumulative renting cost of `annualRent * (i+1)` and a property value fixed
at the purchase price. -/
theorem c9_projection (loan : LoanInputs) (property : PropertyCostInputs)
    (rental : RentalInputs) (market : MarketInputs) :
    (projectYears loan property rental market).length = loan.loanTermYears ∧
    (rental.rentIncreaseRatePct = 0 → market.annualAppreciationRatePct = 0 →
      ∀ i : ℕ, i < loan.loanTermYears →
        ((projectYears loan property rental market).getD i
            ⟨0, 0, 0⟩).cumulativeRentingCost =
          rental.annualRent * ((i : ℚ) + 1) ∧
        ((projectYears loan property rental market).getD i
            ⟨0, 0, 0⟩).propertyValue = loan.purchasePrice) := by
  constructor
  · simp only [projectYears]
    exact projectYearsAux_length _ _ _ _ _ _ _ _
  · intro hri har i hi
    simp only [projectYears]
    rw [hri, har]
    obtain ⟨hA, hB⟩ :=
      projectYearsAux_zero_rates
        (monthlyPayment
            (loan.purchasePrice -
              loan.purchasePrice * (loan.downPaymentPct / 100))
            loan.annualInterestRatePct loan.loanTermYears * 12 +
          annual_property_expenses property.purchasePrice
            property.propertyTaxRatePct property.maintenanceCostRatePct)
        rental.annualRent loan.purchasePrice loan.loanTermYears i hi 0 0
    rw [hA, hB]
    constructor
    · ring
    · rfl

/-- Witness for C9 at a 1-year loan with zero rates. -/
theorem c9_witness :
    ((⟨9, 0⟩ : RentalInputs).rentIncreaseRatePct = 0) ∧
    ((⟨0⟩ : MarketInputs).annualAppreciationRatePct = 0) ∧
    (0 < (⟨100, 20, 1, 4⟩ : LoanInputs).loanTermYears) ∧
    (((projectYears ⟨100, 20, 1, 4⟩ ⟨100, 1, 2⟩ ⟨9, 0⟩ ⟨0⟩).getD 0
        ⟨0, 0, 0⟩).cumulativeRentingCost =
      (⟨9, 0⟩ : RentalInputs).annualRent * (((0 : ℕ) : ℚ) + 1) ∧
     ((projectYears ⟨100, 20, 1, 4⟩ ⟨100, 1, 2⟩ ⟨9, 0⟩ ⟨0⟩).getD 0
        ⟨0, 0, 0⟩).propertyValue =
      (⟨100, 20, 1, 4⟩ : LoanInputs).purchasePrice) :=
  ⟨rfl, rfl, Nat.one_pos,
    (c9_projection ⟨100, 20, 1, 4⟩ ⟨100, 1, 2⟩ ⟨9, 0⟩ ⟨0⟩).2 rfl rfl 0
      Nat.one_pos⟩

end RentOrBuy
